import Mathlib

/-!
# Verification of the PSoC6 bare-metal PAL (optiga-trust-m)

Shallow embedding of `src/pal/COMPONENT_PSOC6_BAREMETAL/COMPONENT_CM4/pal_i2c.c`
and `pal_os_timer.c`, with theorems settling the specification claims about the
I2C mediator and the timer-delay arithmetic.

Machine integers are modelled as `Nat` with explicit `% 2^w` where the C code
relies on fixed-width arithmetic.  Pointers that the code may dereference while
null are modelled as `Option`; a dereference of a null pointer is a `Crash`
outcome (`Except Crash _`).  Hardware calls are modelled by recording the call
in an action trace and taking the hardware's result code as an input (oracle)
parameter, exactly where the C code consumes a `cy_rslt_t`.
-/

/-- Tri-state PAL status (`PAL_STATUS_SUCCESS`, `PAL_STATUS_FAILURE`,
`PAL_STATUS_I2C_BUSY`).  The numeric macro values live in `pal.h`, outside this
repository; the logic in `pal_i2c.c` only ever compares and returns them, so an
inductive type is a faithful model. -/
inductive PalStatus where
  | PAL_STATUS_SUCCESS
  | PAL_STATUS_FAILURE
  | PAL_STATUS_I2C_BUSY
deriving DecidableEq, Repr

/-- Event codes delivered to the upper-layer callback (`PAL_I2C_EVENT_SUCCESS`,
`PAL_I2C_EVENT_ERROR`, `PAL_I2C_EVENT_BUSY`), likewise abstracted from their
numeric macro values. -/
inductive PalI2cEvent where
  | PAL_I2C_EVENT_SUCCESS
  | PAL_I2C_EVENT_ERROR
  | PAL_I2C_EVENT_BUSY
deriving DecidableEq, Repr

open PalStatus PalI2cEvent

/-- `CY_RSLT_SUCCESS` is the all-zero result word. -/
def CY_RSLT_SUCCESS : Nat := 0

/-- `CY_RSLT_GET_CODE` extracts the 16-bit error sub-code (the low 16 bits) of
a `cy_rslt_t` result word; the source stores it in a `uint16_t`. -/
def CY_RSLT_GET_CODE (rslt : Nat) : Nat := rslt % 65536

/-- Embedding of `get_status` (pal_i2c.c lines 78-100): classify a hardware
result word.  `return_status` is initialised to `PAL_STATUS_FAILURE`; sub-codes
0,1,2,3,5 are failures, sub-code 4 (previous asynchronous transfer pending)
is busy, and any other sub-code falls through to the initial value. -/
def get_status (result : Nat) : PalStatus :=
  let return_status := PAL_STATUS_FAILURE
  let error_code := CY_RSLT_GET_CODE result
  if (0 = error_code) ∨ (1 = error_code) ∨ (2 = error_code) ∨ (3 = error_code)
      ∨ (5 = error_code) then
    PAL_STATUS_FAILURE
  else if 4 = error_code then
    PAL_STATUS_I2C_BUSY
  else
    return_status

/-! ## Timer arithmetic (`pal_os_timer.c`) -/

/-- 2^32, the modulus of `uint32_t` arithmetic. -/
def UINT32_MOD : Nat := 4294967296

/-- Unsigned 32-bit subtraction `a - b` as C computes it on `uint32_t`. -/
def uint32_sub (a b : Nat) : Nat := (a % UINT32_MOD + (UINT32_MOD - b % UINT32_MOD)) % UINT32_MOD

/-- Unsigned 32-bit addition `a + b` as C computes it on `uint32_t`. -/
def uint32_add (a b : Nat) : Nat := (a + b) % UINT32_MOD

/-- The wraparound-correction expression of `pal_os_timer_delay_in_milliseconds`
(pal_os_timer.c line 99): `time_stamp_diff = (0xFFFFFFFF + (current_time -
start_time)) + 0x01`, every operation on `uint32_t`. -/
def delay_wraparound_branch (current_time start_time : Nat) : Nat :=
  uint32_add (uint32_add 4294967295 (uint32_sub current_time start_time)) 1

/-- One evaluation of `time_stamp_diff` inside the loop body of
`pal_os_timer_delay_in_milliseconds` (pal_os_timer.c lines 96-100): the plain
unsigned subtraction, overwritten by the correction expression when
`start_time > current_time`. -/
def delay_time_stamp_diff (current_time start_time : Nat) : Nat :=
  let time_stamp_diff := uint32_sub current_time start_time
  if start_time % UINT32_MOD > current_time % UINT32_MOD then
    delay_wraparound_branch current_time start_time
  else
    time_stamp_diff

/-! ## The I2C mediator (`pal_i2c.c`) -/

/-- `PAL_I2C_MASTER_MAX_BITRATE` (pal_i2c.c line 47): maximum bit rate of the
I2C master, in kHz. -/
def PAL_I2C_MASTER_MAX_BITRATE : Nat := 400

/-- Event bit for a completed master write (from the platform HAL header
`cyhal_i2c.h`, outside this repository; only its distinctness from the other
bits matters to `pal_i2c.c`). -/
def CYHAL_I2C_MASTER_WR_CMPLT_EVENT : Nat := 131072

/-- Event bit for a completed master read (platform HAL header). -/
def CYHAL_I2C_MASTER_RD_CMPLT_EVENT : Nat := 262144

/-- Event bit for a master transfer error (platform HAL header). -/
def CYHAL_I2C_MASTER_ERR_EVENT : Nat := 524288

/-- The `pal_i2c_itf_t` hardware-interface record (pal_psoc6_config.h lines
60-65).  `i2c_master_obj` is the pointer to the `cyhal_i2c_t` hardware object,
modelled as an opaque handle identifier. -/
structure pal_i2c_itf where
  i2c_master_obj : Nat
  sda_pin : Nat
  scl_pin : Nat
deriving DecidableEq, Repr

/-- The caller-supplied `pal_i2c_t` context.  `p_i2c_hw_config` is a possibly
null pointer to a `pal_i2c_itf_t`; `upper_layer_event_handler` is the raw
callback function-pointer value (0 = NULL, compared against 0 by
`pal_i2c_set_bitrate`); `p_upper_layer_ctx` is the opaque upper-layer pointer
value. -/
structure pal_i2c_t where
  p_i2c_hw_config : Option pal_i2c_itf
  slave_address : Nat
  upper_layer_event_handler : Nat
  p_upper_layer_ctx : Nat
deriving DecidableEq, Repr

/-- The mediator's file-scope mutable state: `pal_i2c_init_status` (line 58)
and `gp_pal_i2c_current_ctx` (line 61, null before the first `write`/`read`). -/
structure PalI2cState where
  pal_i2c_init_status : Bool
  gp_pal_i2c_current_ctx : Option pal_i2c_t
deriving DecidableEq, Repr

/-- Calls issued to the hardware abstraction layer, recorded as a trace. -/
inductive HwAction where
  | cyhal_i2c_init (handle sda scl : Nat)
  | cyhal_i2c_configure (handle : Nat)
  | cyhal_i2c_register_callback (handle : Nat)
  | cyhal_i2c_enable_event (handle : Nat)
  | cyhal_i2c_free (handle : Nat)
  | cyhal_i2c_master_transfer_async (handle slave txLen rxLen : Nat)
  | cyhal_i2c_abort_async (handle : Nat)
  | set_peri_divider (handle freqHz : Nat)
deriving DecidableEq, Repr

/-- One invocation of the upper-layer callback: the function-pointer value
called, the opaque context passed, and the event code delivered. -/
structure Invocation where
  handler : Nat
  upper_ctx : Nat
  event : PalI2cEvent
deriving DecidableEq, Repr

/-- A dereference of a null pointer: the C code has undefined behaviour and in
practice faults; the model makes the outcome explicit. -/
inductive Crash where
  | nullDeref
deriving DecidableEq, Repr

/-- Result of a mediator entry point that may crash: PAL status returned, state
after the call, hardware calls issued, and upper-layer callback invocations. -/
structure CallResult where
  status : PalStatus
  state : PalI2cState
  hw : List HwAction
  callbacks : List Invocation
deriving DecidableEq, Repr

/-- Embedding of `pal_i2c_write` (pal_i2c.c lines 295-336).  The hardware's
synchronous answer to `cyhal_i2c_master_transfer_async` is the oracle input
`transfer_rslt`.  If the guard `(ctx != NULL) && (ctx->p_i2c_hw_config !=
NULL)` fails, the else branch reads `p_i2c_context->upper_layer_event_handler`,
which dereferences the null context pointer when the context itself was null. -/
def pal_i2c_write (s : PalI2cState) (p_i2c_context : Option pal_i2c_t)
    (length : Nat) (transfer_rslt : Nat) : Except Crash CallResult :=
  match p_i2c_context with
  | some ctx =>
    match ctx.p_i2c_hw_config with
    | some hw =>
      let s' : PalI2cState := { s with gp_pal_i2c_current_ctx := some ctx }
      let acts := [HwAction.cyhal_i2c_master_transfer_async hw.i2c_master_obj
                    ctx.slave_address length 0]
      if transfer_rslt = CY_RSLT_SUCCESS then
        .ok ⟨PAL_STATUS_SUCCESS, s', acts, []⟩
      else
        .ok ⟨get_status transfer_rslt, s', acts,
             [⟨ctx.upper_layer_event_handler, ctx.p_upper_layer_ctx, PAL_I2C_EVENT_ERROR⟩]⟩
    | none =>
      .ok ⟨PAL_STATUS_I2C_BUSY, s, [],
           [⟨ctx.upper_layer_event_handler, ctx.p_upper_layer_ctx, PAL_I2C_EVENT_BUSY⟩]⟩
  | none => .error Crash.nullDeref

/-- Embedding of `pal_i2c_read` (pal_i2c.c lines 369-410): identical control
flow to `pal_i2c_write` with the transfer direction reversed. -/
def pal_i2c_read (s : PalI2cState) (p_i2c_context : Option pal_i2c_t)
    (length : Nat) (transfer_rslt : Nat) : Except Crash CallResult :=
  match p_i2c_context with
  | some ctx =>
    match ctx.p_i2c_hw_config with
    | some hw =>
      let s' : PalI2cState := { s with gp_pal_i2c_current_ctx := some ctx }
      let acts := [HwAction.cyhal_i2c_master_transfer_async hw.i2c_master_obj
                    ctx.slave_address 0 length]
      if transfer_rslt = CY_RSLT_SUCCESS then
        .ok ⟨PAL_STATUS_SUCCESS, s', acts, []⟩
      else
        .ok ⟨get_status transfer_rslt, s', acts,
             [⟨ctx.upper_layer_event_handler, ctx.p_upper_layer_ctx, PAL_I2C_EVENT_ERROR⟩]⟩
    | none =>
      .ok ⟨PAL_STATUS_I2C_BUSY, s, [],
           [⟨ctx.upper_layer_event_handler, ctx.p_upper_layer_ctx, PAL_I2C_EVENT_BUSY⟩]⟩
  | none => .error Crash.nullDeref

/-- Embedding of `pal_i2c_init` (pal_i2c.c lines 174-219).  The results of the
two fallible hardware steps `cyhal_i2c_init` and `cyhal_i2c_configure` are the
oracle inputs; `cyhal_i2c_register_callback` and `cyhal_i2c_enable_event`
return nothing and always run once configuration succeeded. -/
def pal_i2c_init (s : PalI2cState) (p_i2c_context : Option pal_i2c_t)
    (init_rslt configure_rslt : Nat) : PalStatus × PalI2cState × List HwAction :=
  if s.pal_i2c_init_status = false then
    match p_i2c_context with
    | some ctx =>
      match ctx.p_i2c_hw_config with
      | some hw =>
        if init_rslt = CY_RSLT_SUCCESS then
          if configure_rslt = CY_RSLT_SUCCESS then
            (PAL_STATUS_SUCCESS, { s with pal_i2c_init_status := true },
             [HwAction.cyhal_i2c_init hw.i2c_master_obj hw.sda_pin hw.scl_pin,
              HwAction.cyhal_i2c_configure hw.i2c_master_obj,
              HwAction.cyhal_i2c_register_callback hw.i2c_master_obj,
              HwAction.cyhal_i2c_enable_event hw.i2c_master_obj])
          else
            (PAL_STATUS_FAILURE, s,
             [HwAction.cyhal_i2c_init hw.i2c_master_obj hw.sda_pin hw.scl_pin,
              HwAction.cyhal_i2c_configure hw.i2c_master_obj])
        else
          (PAL_STATUS_FAILURE, s,
           [HwAction.cyhal_i2c_init hw.i2c_master_obj hw.sda_pin hw.scl_pin])
      | none => (PAL_STATUS_FAILURE, s, [])
    | none => (PAL_STATUS_FAILURE, s, [])
  else
    (PAL_STATUS_FAILURE, s, [])

/-- Embedding of `pal_i2c_deinit` (pal_i2c.c lines 243-261). -/
def pal_i2c_deinit (s : PalI2cState) (p_i2c_context : Option pal_i2c_t) :
    PalStatus × PalI2cState × List HwAction :=
  if s.pal_i2c_init_status = true then
    match p_i2c_context with
    | some ctx =>
      match ctx.p_i2c_hw_config with
      | some hw =>
        (PAL_STATUS_SUCCESS, { s with pal_i2c_init_status := false },
         [HwAction.cyhal_i2c_free hw.i2c_master_obj])
      | none => (PAL_STATUS_FAILURE, s, [])
    | none => (PAL_STATUS_FAILURE, s, [])
  else
    (PAL_STATUS_FAILURE, s, [])

/-- Embedding of `pal_i2c_set_bitrate` (pal_i2c.c lines 440-484).  The local
`i2c_master_obj` is initialised by dereferencing
`p_i2c_context->p_i2c_hw_config` on line 442, BEFORE the null guard on line
447 runs, so a null context (or a null hardware-config pointer) crashes in the
initialiser and the guard is unreachable in that case.  `setDataRate_rslt` is
the value returned by `_cyhal_i2c_set_peri_divider` (0 = rejected). -/
def pal_i2c_set_bitrate (p_i2c_context : Option pal_i2c_t) (bitrate : Nat)
    (setDataRate_rslt : Nat) : Except Crash (PalStatus × List HwAction × List Invocation) :=
  match p_i2c_context with
  | none => .error Crash.nullDeref
  | some ctx =>
    match ctx.p_i2c_hw_config with
    | none => .error Crash.nullDeref
    | some hw =>
      let bitrate' := if bitrate > PAL_I2C_MASTER_MAX_BITRATE
                      then PAL_I2C_MASTER_MAX_BITRATE else bitrate
      let acts := [HwAction.set_peri_divider hw.i2c_master_obj (bitrate' * 1000)]
      let pal_status := if setDataRate_rslt = 0 then PAL_STATUS_FAILURE
                        else PAL_STATUS_SUCCESS
      let event := if setDataRate_rslt = 0 then PAL_I2C_EVENT_ERROR
                   else PAL_I2C_EVENT_SUCCESS
      let invs := if ctx.upper_layer_event_handler ≠ 0 then
                    [Invocation.mk ctx.upper_layer_event_handler ctx.p_upper_layer_ctx event]
                  else []
      .ok (pal_status, acts, invs)

/-- Embedding of `invoke_upper_layer_callback` (pal_i2c.c lines 102-113):
calls the context's upper-layer handler with the opaque upper-layer pointer and
the event.  Dereferences the context pointer, so a null context crashes. -/
def invoke_upper_layer_callback (p_pal_i2c_ctx : Option pal_i2c_t)
    (event : PalI2cEvent) : Except Crash (List Invocation) :=
  match p_pal_i2c_ctx with
  | none => .error Crash.nullDeref
  | some ctx => .ok [⟨ctx.upper_layer_event_handler, ctx.p_upper_layer_ctx, event⟩]

/-- Embedding of `i2c_master_error_detected_callback` (pal_i2c.c lines
115-119): aborts the in-flight hardware transfer through the context's
hardware handle, then reports `PAL_I2C_EVENT_ERROR` upward using the global
current context. -/
def i2c_master_error_detected_callback (s : PalI2cState)
    (p_pal_i2c_ctx : Option pal_i2c_t) :
    Except Crash (List HwAction × List Invocation) :=
  match p_pal_i2c_ctx with
  | none => .error Crash.nullDeref
  | some ctx =>
    match ctx.p_i2c_hw_config with
    | none => .error Crash.nullDeref
    | some hw => do
      let invs ← invoke_upper_layer_callback s.gp_pal_i2c_current_ctx PAL_I2C_EVENT_ERROR
      .ok ([HwAction.cyhal_i2c_abort_async hw.i2c_master_obj], invs)

/-- Embedding of `i2c_master_event_handler` (pal_i2c.c lines 122-141): the
interrupt-driven completion handler, dispatching on the delivered event
bitmask.  Error is checked first; otherwise write-complete, then
read-complete; if none of the three flags is set the handler does nothing. -/
def i2c_master_event_handler (s : PalI2cState) (event : Nat) :
    Except Crash (List HwAction × List Invocation) :=
  if CYHAL_I2C_MASTER_ERR_EVENT &&& event ≠ 0 then
    i2c_master_error_detected_callback s s.gp_pal_i2c_current_ctx
  else if CYHAL_I2C_MASTER_WR_CMPLT_EVENT &&& event ≠ 0 then do
    let invs ← invoke_upper_layer_callback s.gp_pal_i2c_current_ctx PAL_I2C_EVENT_SUCCESS
    .ok ([], invs)
  else if CYHAL_I2C_MASTER_RD_CMPLT_EVENT &&& event ≠ 0 then do
    let invs ← invoke_upper_layer_callback s.gp_pal_i2c_current_ctx PAL_I2C_EVENT_SUCCESS
    .ok ([], invs)
  else
    .ok ([], [])


/-! ## Test fixtures and shared helper lemmas -/

/-- Concrete hardware interface used to instantiate theorems: handle 100 on
pins P6_1 / P6_0. -/
def testItf : pal_i2c_itf := ⟨100, 61, 60⟩

/-- Concrete caller context: hardware interface `testItf`, slave address 0x30,
non-null upper-layer handler 7, opaque upper-layer pointer 9. -/
def testCtx : pal_i2c_t := ⟨some testItf, 48, 7, 9⟩

/-- Concrete caller context whose hardware-config pointer is null. -/
def testCtxNoHw : pal_i2c_t := ⟨none, 48, 7, 9⟩

/-- Concrete mediator state: not initialised, no current transaction context. -/
def testState : PalI2cState := ⟨false, none⟩

/-- Helper: `get_status` classifies every result word by its sub-code alone:
busy exactly on sub-code 4, failure on everything else. -/
theorem get_status_classifies (rslt : Nat) :
    get_status rslt =
      if CY_RSLT_GET_CODE rslt = 4 then PAL_STATUS_I2C_BUSY else PAL_STATUS_FAILURE := by
  simp only [get_status]
  generalize CY_RSLT_GET_CODE rslt = c
  split_ifs <;> first | rfl | omega

/-- Helper: a result word whose sub-code is 4 is not `CY_RSLT_SUCCESS`. -/
theorem subcode_four_not_success (rslt : Nat) (h : CY_RSLT_GET_CODE rslt = 4) :
    rslt ≠ CY_RSLT_SUCCESS := by
  simp only [CY_RSLT_GET_CODE] at h
  simp only [CY_RSLT_SUCCESS]
  omega

/-! ## Claims C9 and C10 -/

/-- Claim C9: the error-code classification function is total with Failure as
its default: for every hardware result whose error sub-code is any value other
than 4 — including sub-codes outside the documented set {0,1,2,3,5} — it
returns `PAL_STATUS_FAILURE`, and it returns `PAL_STATUS_I2C_BUSY` exactly when
the sub-code equals 4. -/
theorem get_status_total_failure_default (rslt : Nat) :
    get_status rslt =
      if CY_RSLT_GET_CODE rslt = 4 then PAL_STATUS_I2C_BUSY else PAL_STATUS_FAILURE :=
  get_status_classifies rslt

/-- Claim C10: the wraparound correction in
`pal_os_timer_delay_in_milliseconds` is a no-op: for all 32-bit unsigned
`start_time` and `current_time`, `(0xFFFFFFFF + (current_time - start_time)) +
0x01` computed modulo 2^32 equals the plain unsigned subtraction
`current_time - start_time`, so the branch taken when
`start_time > current_time` assigns `time_stamp_diff` the value it already
had. -/
theorem delay_wraparound_branch_noop (current_time start_time : Nat) :
    delay_wraparound_branch current_time start_time = uint32_sub current_time start_time
      ∧ delay_time_stamp_diff current_time start_time = uint32_sub current_time start_time := by
  have hbranch :
      delay_wraparound_branch current_time start_time = uint32_sub current_time start_time := by
    unfold delay_wraparound_branch uint32_add
    have hd : uint32_sub current_time start_time < UINT32_MOD := by
      unfold uint32_sub
      exact Nat.mod_lt _ (by unfold UINT32_MOD; omega)
    generalize uint32_sub current_time start_time = d at hd ⊢
    unfold UINT32_MOD at hd ⊢
    omega
  refine ⟨hbranch, ?_⟩
  unfold delay_time_stamp_diff
  split
  · exact hbranch
  · rfl

/-! ## Claims C1 and C2: synchronous rejection of `write`/`read` -/

/-- Claim C1, counterexample: at the concrete busy rejection (result word 4,
i.e. sub-code 4, previous asynchronous transfer pending), `pal_i2c_write`
does return `PAL_STATUS_I2C_BUSY` but its single callback invocation carries
`PAL_I2C_EVENT_ERROR`, not `PAL_I2C_EVENT_BUSY` as the claim states. -/
theorem write_busy_rejection_callback_event_cex :
    (pal_i2c_write testState (some testCtx) 2 4).map (fun r => (r.status, r.callbacks)) =
      .ok (PAL_STATUS_I2C_BUSY, [⟨7, 9, PAL_I2C_EVENT_ERROR⟩]) ∧
    PAL_I2C_EVENT_ERROR ≠ PAL_I2C_EVENT_BUSY := by
  exact ⟨rfl, by decide⟩

/-- Claim C1 as amended: for every `write` whose transfer is rejected with the
previous-asynchronous-transfer-pending sub-code 4, the call returns
`PAL_STATUS_I2C_BUSY` and the upper-layer callback is invoked exactly once —
but with event `PAL_I2C_EVENT_ERROR`, not Busy. -/
theorem write_busy_rejection (s : PalI2cState) (ctx : pal_i2c_t) (hw : pal_i2c_itf)
    (len rslt : Nat) (hhw : ctx.p_i2c_hw_config = some hw)
    (hcode : CY_RSLT_GET_CODE rslt = 4) :
    pal_i2c_write s (some ctx) len rslt =
      .ok ⟨PAL_STATUS_I2C_BUSY, { s with gp_pal_i2c_current_ctx := some ctx },
           [HwAction.cyhal_i2c_master_transfer_async hw.i2c_master_obj ctx.slave_address len 0],
           [⟨ctx.upper_layer_event_handler, ctx.p_upper_layer_ctx, PAL_I2C_EVENT_ERROR⟩]⟩ := by
  have hne := subcode_four_not_success rslt hcode
  simp [pal_i2c_write, hhw, hne, get_status_classifies, hcode]

/-- Claim C1 witness: the amended theorem applied at the concrete busy
rejection (result word 4). -/
theorem write_busy_rejection_witness :
    pal_i2c_write testState (some testCtx) 2 4 =
      .ok ⟨PAL_STATUS_I2C_BUSY, ⟨false, some testCtx⟩,
           [HwAction.cyhal_i2c_master_transfer_async 100 48 2 0],
           [⟨7, 9, PAL_I2C_EVENT_ERROR⟩]⟩ :=
  (write_busy_rejection testState testCtx testItf 2 4 rfl rfl).trans rfl

/-- Claim C2: for every synchronously rejected `write` or `read`, the returned
status is exactly `get_status` of the hardware result — the one shared
classification function, reused at both call sites — and the upper-layer
callback is invoked exactly once with event Error; a sub-code in {0,1,2,3,5}
therefore yields `PAL_STATUS_FAILURE`, and sub-code 4 yields
`PAL_STATUS_I2C_BUSY`. -/
theorem write_read_rejection_classification (s : PalI2cState) (ctx : pal_i2c_t)
    (hw : pal_i2c_itf) (len rslt : Nat) (hhw : ctx.p_i2c_hw_config = some hw)
    (hrej : rslt ≠ CY_RSLT_SUCCESS) :
    pal_i2c_write s (some ctx) len rslt =
      .ok ⟨get_status rslt, { s with gp_pal_i2c_current_ctx := some ctx },
           [HwAction.cyhal_i2c_master_transfer_async hw.i2c_master_obj ctx.slave_address len 0],
           [⟨ctx.upper_layer_event_handler, ctx.p_upper_layer_ctx, PAL_I2C_EVENT_ERROR⟩]⟩ ∧
    pal_i2c_read s (some ctx) len rslt =
      .ok ⟨get_status rslt, { s with gp_pal_i2c_current_ctx := some ctx },
           [HwAction.cyhal_i2c_master_transfer_async hw.i2c_master_obj ctx.slave_address 0 len],
           [⟨ctx.upper_layer_event_handler, ctx.p_upper_layer_ctx, PAL_I2C_EVENT_ERROR⟩]⟩ ∧
    ((CY_RSLT_GET_CODE rslt = 0 ∨ CY_RSLT_GET_CODE rslt = 1 ∨ CY_RSLT_GET_CODE rslt = 2
        ∨ CY_RSLT_GET_CODE rslt = 3 ∨ CY_RSLT_GET_CODE rslt = 5) →
      get_status rslt = PAL_STATUS_FAILURE) ∧
    (CY_RSLT_GET_CODE rslt = 4 → get_status rslt = PAL_STATUS_I2C_BUSY) := by
  refine ⟨?_, ?_, ?_, ?_⟩
  · simp [pal_i2c_write, hhw, hrej]
  · simp [pal_i2c_read, hhw, hrej]
  · intro h
    rw [get_status_classifies]
    have : ¬ CY_RSLT_GET_CODE rslt = 4 := by omega
    simp [this]
  · intro h
    rw [get_status_classifies]
    simp [h]

/-- Claim C2 witness: the theorem applied at the concrete hard failure
(result word 1, sub-code 1: unreachable data rate). -/
theorem write_read_rejection_classification_witness :
    pal_i2c_write testState (some testCtx) 2 1 =
      .ok ⟨PAL_STATUS_FAILURE, ⟨false, some testCtx⟩,
           [HwAction.cyhal_i2c_master_transfer_async 100 48 2 0],
           [⟨7, 9, PAL_I2C_EVENT_ERROR⟩]⟩ ∧
    pal_i2c_read testState (some testCtx) 2 1 =
      .ok ⟨PAL_STATUS_FAILURE, ⟨false, some testCtx⟩,
           [HwAction.cyhal_i2c_master_transfer_async 100 48 0 2],
           [⟨7, 9, PAL_I2C_EVENT_ERROR⟩]⟩ := by
  have h := write_read_rejection_classification testState testCtx testItf 2 1 rfl (by decide)
  exact ⟨h.1.trans rfl, h.2.1.trans rfl⟩

/-! ## Claim C4: null context / null hardware handle on `write` and `read` -/

/-- Claim C4, counterexample: called with a null context pointer,
`pal_i2c_write` does not return Busy with a Busy callback — its fallback
branch reads `p_i2c_context->upper_layer_event_handler` through the null
pointer and crashes. -/
theorem write_null_context_cex :
    pal_i2c_write testState none 2 0 = .error Crash.nullDeref ∧
    pal_i2c_read testState none 2 0 = .error Crash.nullDeref := by
  exact ⟨rfl, rfl⟩

/-- Claim C4 as amended: when the context is non-null but its hardware
configuration handle is null, `write` and `read` return `PAL_STATUS_I2C_BUSY`
and synchronously invoke the upper-layer callback exactly once with event
Busy; when the context pointer itself is null, the same fallback branch
dereferences the null context while fetching the callback, so the call crashes
instead of returning. -/
theorem write_read_null_hw_config_busy (s : PalI2cState) (ctx : pal_i2c_t)
    (len rslt : Nat) (hhw : ctx.p_i2c_hw_config = none) :
    pal_i2c_write s (some ctx) len rslt =
      .ok ⟨PAL_STATUS_I2C_BUSY, s, [],
           [⟨ctx.upper_layer_event_handler, ctx.p_upper_layer_ctx, PAL_I2C_EVENT_BUSY⟩]⟩ ∧
    pal_i2c_read s (some ctx) len rslt =
      .ok ⟨PAL_STATUS_I2C_BUSY, s, [],
           [⟨ctx.upper_layer_event_handler, ctx.p_upper_layer_ctx, PAL_I2C_EVENT_BUSY⟩]⟩ ∧
    pal_i2c_write s none len rslt = .error Crash.nullDeref ∧
    pal_i2c_read s none len rslt = .error Crash.nullDeref := by
  refine ⟨?_, ?_, rfl, rfl⟩
  · simp [pal_i2c_write, hhw]
  · simp [pal_i2c_read, hhw]

/-- Claim C4 witness: the amended theorem applied at the concrete context with
a null hardware-config pointer. -/
theorem write_read_null_hw_config_busy_witness :
    pal_i2c_write testState (some testCtxNoHw) 2 0 =
      .ok ⟨PAL_STATUS_I2C_BUSY, testState, [], [⟨7, 9, PAL_I2C_EVENT_BUSY⟩]⟩ ∧
    pal_i2c_read testState (some testCtxNoHw) 2 0 =
      .ok ⟨PAL_STATUS_I2C_BUSY, testState, [], [⟨7, 9, PAL_I2C_EVENT_BUSY⟩]⟩ := by
  have h := write_read_null_hw_config_busy testState testCtxNoHw 2 0 rfl
  exact ⟨h.1.trans rfl, h.2.1.trans rfl⟩

/-! ## Claim C3: the interrupt-driven completion handler -/

/-- Claim C3: for every hardware interrupt event bitmask delivered to the
completion handler (i.e. containing at least one of the three event flags the
mediator enables at `init`), the handler invokes the upper-layer callback
exactly once: with event Error, after aborting the in-flight transfer,
whenever the error flag is set (regardless of whether the completion flags are
also set), and otherwise with event Success when a write-complete or
read-complete flag is set; the callback uses the context captured into
`gp_pal_i2c_current_ctx` by the most recent `write`/`read` call. -/
theorem event_handler_exactly_one_callback (s : PalI2cState) (ctx : pal_i2c_t)
    (hw : pal_i2c_itf) (len rslt e : Nat) (hhw : ctx.p_i2c_hw_config = some hw)
    (hdeliv : CYHAL_I2C_MASTER_ERR_EVENT &&& e ≠ 0
      ∨ CYHAL_I2C_MASTER_WR_CMPLT_EVENT &&& e ≠ 0
      ∨ CYHAL_I2C_MASTER_RD_CMPLT_EVENT &&& e ≠ 0) :
    ∀ r : CallResult, pal_i2c_write s (some ctx) len rslt = .ok r →
      r.state.gp_pal_i2c_current_ctx = some ctx ∧
      i2c_master_event_handler r.state e =
        .ok ((if CYHAL_I2C_MASTER_ERR_EVENT &&& e ≠ 0
                then [HwAction.cyhal_i2c_abort_async hw.i2c_master_obj] else []),
             [⟨ctx.upper_layer_event_handler, ctx.p_upper_layer_ctx,
               if CYHAL_I2C_MASTER_ERR_EVENT &&& e ≠ 0
                 then PAL_I2C_EVENT_ERROR else PAL_I2C_EVENT_SUCCESS⟩]) := by
  intro r hr
  have hstate : r.state = { s with gp_pal_i2c_current_ctx := some ctx } := by
    simp only [pal_i2c_write, hhw] at hr
    split at hr <;> (cases hr; rfl)
  refine ⟨by rw [hstate], ?_⟩
  rw [hstate]
  by_cases herr : CYHAL_I2C_MASTER_ERR_EVENT &&& e ≠ 0
  · simp [i2c_master_event_handler, herr, i2c_master_error_detected_callback,
      invoke_upper_layer_callback, hhw]
    rfl
  · by_cases hwr : CYHAL_I2C_MASTER_WR_CMPLT_EVENT &&& e ≠ 0
    · simp [i2c_master_event_handler, herr, hwr, invoke_upper_layer_callback, hhw]
      rfl
    · have hrd : CYHAL_I2C_MASTER_RD_CMPLT_EVENT &&& e ≠ 0 := by
        rcases hdeliv with h | h | h
        · exact absurd h herr
        · exact absurd h hwr
        · exact h
      simp [i2c_master_event_handler, herr, hwr, hrd, invoke_upper_layer_callback, hhw]
      rfl

/-- Claim C3 witness: after a `write` that captured `testCtx`, an interrupt
bitmask with both the error and the write-complete flags set yields exactly one
callback, with event Error, after an abort on handle 100. -/
theorem event_handler_exactly_one_callback_witness :
    i2c_master_event_handler ⟨false, some testCtx⟩
        (CYHAL_I2C_MASTER_ERR_EVENT ||| CYHAL_I2C_MASTER_WR_CMPLT_EVENT) =
      .ok ([HwAction.cyhal_i2c_abort_async 100], [⟨7, 9, PAL_I2C_EVENT_ERROR⟩]) := by
  have h := event_handler_exactly_one_callback testState testCtx testItf 2 0
      (CYHAL_I2C_MASTER_ERR_EVENT ||| CYHAL_I2C_MASTER_WR_CMPLT_EVENT) rfl
      (Or.inl (by decide))
      ⟨PAL_STATUS_SUCCESS, ⟨false, some testCtx⟩,
       [HwAction.cyhal_i2c_master_transfer_async 100 48 2 0], []⟩ rfl
  exact h.2.trans rfl

/-! ## Claim C5: `init` success condition and re-entrancy -/

/-- Claim C5: `pal_i2c_init` returns Success if and only if the bus was not
already initialized and every underlying hardware configuration step runs and
succeeds (which requires a usable context: non-null with a non-null hardware
config); and every re-entrant call made while already initialized returns
Failure without issuing any hardware call or changing any state. -/
theorem pal_i2c_init_success_iff (s : PalI2cState) (pctx : Option pal_i2c_t)
    (init_rslt configure_rslt : Nat) :
    ((pal_i2c_init s pctx init_rslt configure_rslt).1 = PAL_STATUS_SUCCESS ↔
      (s.pal_i2c_init_status = false ∧ init_rslt = CY_RSLT_SUCCESS
        ∧ configure_rslt = CY_RSLT_SUCCESS
        ∧ ∃ ctx hw, pctx = some ctx ∧ ctx.p_i2c_hw_config = some hw)) ∧
    (s.pal_i2c_init_status = true →
      pal_i2c_init s pctx init_rslt configure_rslt = (PAL_STATUS_FAILURE, s, [])) := by
  constructor
  · rcases hs : s.pal_i2c_init_status with _ | _
    · rcases pctx with _ | ctx
      · simp [pal_i2c_init, hs]
      · rcases hhw : ctx.p_i2c_hw_config with _ | hw
        · simp [pal_i2c_init, hs, hhw]
        · by_cases hi : init_rslt = CY_RSLT_SUCCESS
          · by_cases hc : configure_rslt = CY_RSLT_SUCCESS
            · simp [pal_i2c_init, hs, hhw, hi, hc]
            · simp [pal_i2c_init, hs, hhw, hi, hc]
          · simp [pal_i2c_init, hs, hhw, hi]
    · simp [pal_i2c_init, hs]
  · intro hs
    simp [pal_i2c_init, hs]

/-- Claim C5 witness: the theorem applied at an already-initialized state:
a re-entrant `init` with a perfectly good context and succeeding hardware
results still returns Failure, issues no hardware call, and leaves the state
unchanged. -/
theorem pal_i2c_init_success_iff_witness :
    pal_i2c_init ⟨true, none⟩ (some testCtx) 0 0 = (PAL_STATUS_FAILURE, ⟨true, none⟩, []) :=
  (pal_i2c_init_success_iff ⟨true, none⟩ (some testCtx) 0 0).2 rfl

/-! ## Claim C6: `write` after `deinit` -/

/-- Claim C6, behaviour of the code at the failing input: a successful `init`
(handle 100 configured), then `deinit` with the same context — which returns
Success and frees handle 100 — and then a `write` with that context: the
write is NOT rejected; it issues `cyhal_i2c_master_transfer_async` on the very
handle 100 that was just freed, and even returns `PAL_STATUS_SUCCESS` when the
hardware accepts it.  (`pal_i2c_write` never consults `pal_i2c_init_status`.) -/
theorem write_after_deinit_uses_freed_handle :
    pal_i2c_init testState (some testCtx) 0 0 =
      (PAL_STATUS_SUCCESS, ⟨true, none⟩,
       [HwAction.cyhal_i2c_init 100 61 60, HwAction.cyhal_i2c_configure 100,
        HwAction.cyhal_i2c_register_callback 100, HwAction.cyhal_i2c_enable_event 100]) ∧
    pal_i2c_deinit ⟨true, none⟩ (some testCtx) =
      (PAL_STATUS_SUCCESS, ⟨false, none⟩, [HwAction.cyhal_i2c_free 100]) ∧
    pal_i2c_write ⟨false, none⟩ (some testCtx) 2 0 =
      .ok ⟨PAL_STATUS_SUCCESS, ⟨false, some testCtx⟩,
           [HwAction.cyhal_i2c_master_transfer_async 100 48 2 0], []⟩ := by
  exact ⟨rfl, rfl, rfl⟩

/-! ## Claims C7 and C8: `set_bitrate` -/

/-- Claim C7: for every requested bitrate above the fixed 400 kHz maximum,
`pal_i2c_set_bitrate` clamps the rate to 400 kHz before reconfiguring the
clock divider — the divider is asked for exactly 400 * 1000 Hz  — and returns
Success, invoking the registered callback once with event Success, when the
hardware accepts the divider (non-zero achieved rate); it returns Failure and
invokes the callback once with event Error when the hardware rejects it
(achieved rate 0). -/
theorem set_bitrate_clamps_to_max (ctx : pal_i2c_t) (hw : pal_i2c_itf)
    (bitrate setDataRate_rslt : Nat) (hhw : ctx.p_i2c_hw_config = some hw)
    (hover : bitrate > PAL_I2C_MASTER_MAX_BITRATE)
    (hreg : ctx.upper_layer_event_handler ≠ 0) :
    pal_i2c_set_bitrate (some ctx) bitrate setDataRate_rslt =
      .ok ((if setDataRate_rslt = 0 then PAL_STATUS_FAILURE else PAL_STATUS_SUCCESS),
           [HwAction.set_peri_divider hw.i2c_master_obj (PAL_I2C_MASTER_MAX_BITRATE * 1000)],
           [⟨ctx.upper_layer_event_handler, ctx.p_upper_layer_ctx,
             if setDataRate_rslt = 0 then PAL_I2C_EVENT_ERROR else PAL_I2C_EVENT_SUCCESS⟩]) := by
  simp [pal_i2c_set_bitrate, hhw, hover, hreg]

/-- Claim C7 witness: the theorem applied at the concrete over-maximum request
of 1000 kHz, once with the divider accepting (achieved rate 400000) and once
with the divider rejecting (achieved rate 0). -/
theorem set_bitrate_clamps_to_max_witness :
    pal_i2c_set_bitrate (some testCtx) 1000 400000 =
      .ok (PAL_STATUS_SUCCESS, [HwAction.set_peri_divider 100 400000],
           [⟨7, 9, PAL_I2C_EVENT_SUCCESS⟩]) ∧
    pal_i2c_set_bitrate (some testCtx) 1000 0 =
      .ok (PAL_STATUS_FAILURE, [HwAction.set_peri_divider 100 400000],
           [⟨7, 9, PAL_I2C_EVENT_ERROR⟩]) := by
  have h1 := set_bitrate_clamps_to_max testCtx testItf 1000 400000 rfl (by decide) (by decide)
  have h2 := set_bitrate_clamps_to_max testCtx testItf 1000 0 rfl (by decide) (by decide)
  exact ⟨h1.trans rfl, h2.trans rfl⟩

/-- Claim C8: for a null context pointer, `pal_i2c_set_bitrate` dereferences
`p_i2c_context->p_i2c_hw_config` in the initializer of its local
`i2c_master_obj` variable before its null-check executes, so the guard cannot
prevent the dereference: for every requested bitrate and every hardware
answer, the call crashes on the null dereference instead of rejecting the null
context. -/
theorem set_bitrate_null_context_derefs (bitrate setDataRate_rslt : Nat) :
    pal_i2c_set_bitrate none bitrate setDataRate_rslt = .error Crash.nullDeref := rfl
